import Mathlib

/-!
Verification development for the `model_video` eye-tracking core.

The Python sources under `src/eye_tracking/` are shallowly embedded:
times and geometric quantities are rationals (`ℚ`), Python's `None`
becomes `Option`, file-appended JSONL records become append-only Lean
lists, and each mutating method becomes a state-passing function.
Geometric helpers whose values are square-root/median computations over
the 478 raw landmarks (`_calculate_face_width`, `_calculate_eye_height`,
`_calculate_eye_aspect_ratio`, `_get_eye_region`-derived x-ratios,
`_check_face_symmetry`, `_is_looking_forward`) are treated as per-frame
input features; all control flow, thresholds, counters and arithmetic on
top of them follow the source line by line.
-/

namespace ModelVideo

/-- Python's `round(x, 2)` used by every logger when emitting a record.
(Python rounds floats half-to-even; the half-cent tie cases do not occur
in this development, where all emitted times are exact multiples of 1/100.) -/
def round2 (q : ℚ) : ℚ := ((Rat.floor (q * 100 + 1/2) : ℤ) : ℚ) / 100

/-- Python's `round(x, 3)` used by the recalibration-event log. -/
def round3 (q : ℚ) : ℚ := ((Rat.floor (q * 1000 + 1/2) : ℤ) : ℚ) / 1000

/-! ### `logger.py` — BlinkLogger -/

/-- One line of the blink JSONL log (`log_blink`): `{"time": ..., "blink_index": ...}`.
The constant `"event": "blink"`, `"eye": "both"` fields are omitted. -/
structure BlinkEntry where
  time : ℚ
  blink_index : ℕ
  deriving DecidableEq, Repr

/-- State of `BlinkLogger`: the running index and the file contents. -/
structure BlinkLoggerState where
  blink_index : ℕ := 0
  log : List BlinkEntry := []
  deriving DecidableEq, Repr

/-- Embeds `BlinkLogger.log_blink`: increment the index, then append the entry. -/
def logBlink (timestamp : ℚ) (s : BlinkLoggerState) : BlinkLoggerState :=
  { blink_index := s.blink_index + 1
    log := s.log ++ [⟨round2 timestamp, s.blink_index + 1⟩] }

/-- Embeds `BlinkLogger.force_resolve`, a no-op. -/
def blinkForceResolve (_timestamp : ℚ) (s : BlinkLoggerState) : BlinkLoggerState := s

/-! ### `logger.py` — GazeLogger -/

/-- One line of the gaze JSONL log. -/
structure GazeEntry where
  start_time : ℚ
  end_time : ℚ
  direction : String
  index : ℕ
  deriving DecidableEq, Repr

/-- State of `GazeLogger`. `current_start_time` / `current_direction`
are `None` initially in the source and are only read while `active`. -/
structure GazeLoggerState where
  active : Bool := false
  current_start_time : Option ℚ := none
  current_direction : Option String := none
  gaze_index : ℕ := 0
  log : List GazeEntry := []
  deriving DecidableEq, Repr

/-- Embeds `GazeLogger._log_gaze`: if active, append the open interval closed at
`timestamp` with the running index, then post-increment the index, clear
`active` and `current_direction`. -/
def logGaze (timestamp : ℚ) (s : GazeLoggerState) : GazeLoggerState :=
  if s.active then
    { s with
      log := s.log ++ [⟨round2 (s.current_start_time.getD 0), round2 timestamp,
                        s.current_direction.getD "", s.gaze_index⟩]
      gaze_index := s.gaze_index + 1
      active := false
      current_direction := none }
  else s

/-- Embeds `GazeLogger.update_gaze`. Note that after a direction change the
source calls `_log_gaze` (which sets `active = False`) and then assigns
`current_start_time` / `current_direction` without re-setting `active`. -/
def updateGaze (timestamp : ℚ) (direction : String) (s : GazeLoggerState) : GazeLoggerState :=
  if ¬s.active then
    { s with active := true, current_start_time := some timestamp,
             current_direction := some direction }
  else if s.current_direction ≠ some direction then
    let s' := logGaze timestamp s
    { s' with current_start_time := some timestamp, current_direction := some direction }
  else s

/-- Embeds `GazeLogger.force_resolve`. -/
def gazeForceResolve (timestamp : ℚ) (s : GazeLoggerState) : GazeLoggerState :=
  if s.active then logGaze timestamp s else s

/-! ### `logger.py` — HeadLogger (same shape as GazeLogger) -/

/-- State of `HeadLogger`; its log lines have the same fields as gaze lines. -/
structure HeadLoggerState where
  active : Bool := false
  current_start_time : Option ℚ := none
  current_direction : Option String := none
  head_index : ℕ := 0
  log : List GazeEntry := []
  deriving DecidableEq, Repr

/-- Embeds `HeadLogger._log_head`. -/
def logHead (timestamp : ℚ) (s : HeadLoggerState) : HeadLoggerState :=
  if s.active then
    { s with
      log := s.log ++ [⟨round2 (s.current_start_time.getD 0), round2 timestamp,
                        s.current_direction.getD "", s.head_index⟩]
      head_index := s.head_index + 1
      active := false
      current_direction := none }
  else s

/-- Embeds `HeadLogger.update_head` (same slip as `update_gaze`: `active` stays
`False` after the embedded `_log_head`). -/
def updateHead (timestamp : ℚ) (direction : String) (s : HeadLoggerState) : HeadLoggerState :=
  if ¬s.active then
    { s with active := true, current_start_time := some timestamp,
             current_direction := some direction }
  else if s.current_direction ≠ some direction then
    let s' := logHead timestamp s
    { s' with current_start_time := some timestamp, current_direction := some direction }
  else s

/-- Embeds `HeadLogger.force_resolve`. -/
def headForceResolve (timestamp : ℚ) (s : HeadLoggerState) : HeadLoggerState :=
  if s.active then logHead timestamp s else s

/-! ### `anomaly_logger.py` — AnomalyLogger -/

/-- One line of the anomaly JSONL log. Face counts are integers. -/
structure AnomalyEntry where
  start_time : ℚ
  end_time : ℚ
  reason : String
  face_count : ℤ
  index : ℕ
  deriving DecidableEq, Repr

/-- The `anomaly_indices` dict, which has exactly the two keys below. -/
structure AnomalyIndices where
  multiple_faces_detected : ℕ := 0
  no_face : ℕ := 0
  deriving DecidableEq, Repr

/-- Embeds `dict.get(reason, 0)` on the index dict. -/
def AnomalyIndices.get (d : AnomalyIndices) (reason : String) : ℕ :=
  if reason = "multiple_faces_detected" then d.multiple_faces_detected
  else if reason = "no_face" then d.no_face
  else 0

/-- Embeds `dict[reason] = v` on the index dict. -/
def AnomalyIndices.set (d : AnomalyIndices) (reason : String) (v : ℕ) : AnomalyIndices :=
  if reason = "multiple_faces_detected" then { d with multiple_faces_detected := v }
  else if reason = "no_face" then { d with no_face := v }
  else d

/-- State of `AnomalyLogger`. -/
structure AnomalyLoggerState where
  active : Bool := false
  current_start_time : Option ℚ := none
  current_reason : Option String := none
  current_face_count : Option ℤ := none
  anomaly_indices : AnomalyIndices := {}
  log : List AnomalyEntry := []
  deriving DecidableEq, Repr

/-- Embeds `AnomalyLogger.begin_anomaly`. -/
def beginAnomaly (timestamp : ℚ) (reason : String) (face_count : ℤ)
    (s : AnomalyLoggerState) : AnomalyLoggerState :=
  { s with active := true, current_start_time := some timestamp,
           current_reason := some reason, current_face_count := some face_count }

/-- Embeds `AnomalyLogger.resolve_anomaly`. -/
def resolveAnomaly (timestamp : ℚ) (s : AnomalyLoggerState) : AnomalyLoggerState :=
  if ¬s.active then s
  else
    let reason := s.current_reason.getD ""
    let idx := s.anomaly_indices.get reason
    { s with
      log := s.log ++ [⟨round2 (s.current_start_time.getD 0), round2 timestamp,
                        reason, s.current_face_count.getD 0, idx⟩]
      anomaly_indices := s.anomaly_indices.set reason (idx + 1)
      active := false
      current_reason := none
      current_face_count := none }

/-- Embeds `AnomalyLogger.update_state`. -/
def updateAnomalyState (timestamp : ℚ) (face_count : ℤ)
    (s : AnomalyLoggerState) : AnomalyLoggerState :=
  if face_count = 1 then
    if s.active then resolveAnomaly timestamp s else s
  else
    let reason := if face_count > 1 then "multiple_faces_detected" else "no_face"
    if ¬s.active then beginAnomaly timestamp reason face_count s
    else if s.current_reason = some reason ∧ s.current_face_count ≠ some face_count then
      beginAnomaly timestamp reason face_count (resolveAnomaly timestamp s)
    else s

/-- Embeds `AnomalyLogger.force_resolve`. -/
def anomalyForceResolve (timestamp : ℚ) (s : AnomalyLoggerState) : AnomalyLoggerState :=
  if s.active then resolveAnomaly timestamp s else s

/-! ### `gaze_analyzer.py` — GazeAnalyzer

Per-frame input features.  Each field is the value of one of the
geometric helper methods evaluated on the frame's landmark list:
`nose` = landmark `NOSE_TIP` (x, y); `leftIris`/`rightIris` = iris-center
landmarks; `faceWidth` = `_calculate_face_width`; `neckPos` =
`_calculate_neck_position`; `leftEyeHeight`/`rightEyeHeight` =
`_calculate_eye_height`; `leftXRatio`/`rightXRatio` = the iris position
ratio `(iris.x - eye_left) / (eye_right - eye_left)` computed from
`_get_eye_region`; `leftEAR`/`rightEAR` = `_calculate_eye_aspect_ratio`;
`symmetric` = `_check_face_symmetry`; `lookingForward` =
`_is_looking_forward`.  Those helpers are pure functions of the
landmarks (medians, means and Euclidean norms), so quantifying over
these features is quantifying over landmark frames. -/
structure Frame where
  nose : ℚ × ℚ
  leftIris : ℚ × ℚ
  rightIris : ℚ × ℚ
  faceWidth : ℚ
  neckPos : ℚ × ℚ
  leftEyeHeight : ℚ
  rightEyeHeight : ℚ
  leftXRatio : ℚ
  rightXRatio : ℚ
  leftEAR : ℚ
  rightEAR : ℚ
  symmetric : Bool
  lookingForward : Bool
  deriving DecidableEq, Repr

/-- Threshold constants from `GazeAnalyzer.__init__`. -/
def headXThreshold : ℚ := 35/1000
def headYThreshold : ℚ := 30/1000
def gazeXThreshold : ℚ := 15/100
def gazeYThreshold : ℚ := 15/100
def faceWidthTolerance : ℚ := 15/100
def maxMovementCount : ℕ := 5
def blinkThreshold : ℚ := 25/100
def blinkBufferSize : ℕ := 5
def maxBlinkDuration : ℚ := 3/10
def minLookingDownDuration : ℚ := 1

/-- Mutable state of `GazeAnalyzer` (the fields its methods read or
write; `prev_left_positions`/`prev_right_positions` are reset by
`start_calibration` but never read anywhere, and are omitted). -/
structure GAState where
  calibration_start : Option ℚ := none
  is_calibrated : Bool := false
  baseline_nose_pos : Option (ℚ × ℚ) := none
  baseline_left_iris : Option (ℚ × ℚ) := none
  baseline_right_iris : Option (ℚ × ℚ) := none
  calibration_count : ℕ := 0
  baseline_face_width : Option ℚ := none
  baseline_neck_pos : Option (ℚ × ℚ) := none
  baseline_left_eye_height : Option ℚ := none
  baseline_right_eye_height : Option ℚ := none
  baseline_left_x_ratio : Option ℚ := none
  baseline_right_x_ratio : Option ℚ := none
  movement_count : ℕ := 0
  blink_frames : List ℚ := []
  eye_closed_start : Option ℚ := none
  looking_down_start : Option ℚ := none
  blink_timestamps : List ℚ := []
  recalib_start_time : Option ℚ := none
  recalib_log : List (ℚ × ℚ) := []
  deriving DecidableEq, Repr

/-- Embeds `GazeAnalyzer.start_calibration` (video-time based). -/
def startCalibration (current_time : ℚ) (s : GAState) : GAState :=
  { s with calibration_start := some current_time, is_calibrated := false,
           calibration_count := 0, movement_count := 0,
           recalib_start_time := some current_time }

/-- The seven baseline fields explicitly set to `None` at the two
recalibration-restart sites inside `analyze_head_pose` (the x-ratio
baselines are not among them in the source). -/
def clearBaselines (s : GAState) : GAState :=
  { s with baseline_nose_pos := none, baseline_left_iris := none,
           baseline_right_iris := none, baseline_face_width := none,
           baseline_neck_pos := none, baseline_left_eye_height := none,
           baseline_right_eye_height := none }

/-- Embeds `GazeAnalyzer.log_recalib_event` + `finish_calibration`
(`program_start_time` is 0, so relative times equal absolute ones). -/
def finishCalibration (timestamp : ℚ) (s : GAState) : GAState :=
  match s.recalib_start_time with
  | some st => { s with recalib_log := s.recalib_log ++ [(round3 st, round3 timestamp)],
                        recalib_start_time := none }
  | none => s

/-- Embeds `GazeAnalyzer._check_movement`: returns whether sustained movement
was detected, together with the updated state (the violation counter is
mutated before the method returns). `ℕ` subtraction models the source's
`max(0, movement_count - 1)`. -/
def checkMovement (f : Frame) (s : GAState) : Bool × GAState :=
  match s.baseline_face_width, s.baseline_neck_pos with
  | some bw, some bn =>
      let width_diff := |f.faceWidth - bw| / bw
      let neck_x_diff := |f.neckPos.1 - bn.1|
      let has_forward_movement := width_diff > faceWidthTolerance
      let has_sideways_movement := neck_x_diff > 1/10
      if has_forward_movement ∨ has_sideways_movement then
        let s' := { s with movement_count := s.movement_count + 1 }
        if s'.movement_count ≥ maxMovementCount then (true, s') else (false, s')
      else (false, { s with movement_count := s.movement_count - 1 })
  | _, _ => (false, s)

/-- Embeds `" ".join(direction) if direction else "center"`. -/
def joinDirections (dirs : List String) : String :=
  if dirs = [] then "center" else String.intercalate " " dirs

/-- The nine-field completeness check before finalizing calibration
(`analyze_head_pose`, end-of-window branch). -/
def anyBaselineUnset (s : GAState) : Bool :=
  s.baseline_nose_pos = none ∨ s.baseline_left_iris = none ∨
  s.baseline_right_iris = none ∨ s.baseline_face_width = none ∨
  s.baseline_neck_pos = none ∨ s.baseline_left_eye_height = none ∨
  s.baseline_right_eye_height = none ∨ s.baseline_left_x_ratio = none ∨
  s.baseline_right_x_ratio = none

/-- The five-field loss check on the calibrated path of `analyze_head_pose`. -/
def coreBaselineUnset (s : GAState) : Bool :=
  s.baseline_nose_pos = none ∨ s.baseline_left_iris = none ∨
  s.baseline_right_iris = none ∨ s.baseline_face_width = none ∨
  s.baseline_neck_pos = none

/-- One accumulation step of the calibration window: increment
`calibration_count`, then either install the frame's values (first
sample) or fold them into the running mean. -/
def accumulateBaseline (f : Frame) (s : GAState) : GAState :=
  let n : ℕ := s.calibration_count + 1
  if s.baseline_nose_pos = none then
    { s with calibration_count := n,
             baseline_nose_pos := some f.nose,
             baseline_left_iris := some f.leftIris,
             baseline_right_iris := some f.rightIris,
             baseline_face_width := some f.faceWidth,
             baseline_neck_pos := some f.neckPos,
             baseline_left_eye_height := some f.leftEyeHeight,
             baseline_right_eye_height := some f.rightEyeHeight,
             baseline_left_x_ratio := some f.leftXRatio,
             baseline_right_x_ratio := some f.rightXRatio }
  else
    let avg : ℚ → ℚ → ℚ := fun old new => (old * ((n : ℚ) - 1) + new) / (n : ℚ)
    let avg2 : ℚ × ℚ → ℚ × ℚ → ℚ × ℚ :=
      fun old new => (avg old.1 new.1, avg old.2 new.2)
    { s with calibration_count := n,
             baseline_nose_pos := some (avg2 (s.baseline_nose_pos.getD (0, 0)) f.nose),
             baseline_left_iris := some (avg2 (s.baseline_left_iris.getD (0, 0)) f.leftIris),
             baseline_right_iris := some (avg2 (s.baseline_right_iris.getD (0, 0)) f.rightIris),
             baseline_face_width := some (avg (s.baseline_face_width.getD 0) f.faceWidth),
             baseline_neck_pos := some (avg2 (s.baseline_neck_pos.getD (0, 0)) f.neckPos),
             baseline_left_eye_height := some (avg (s.baseline_left_eye_height.getD 0) f.leftEyeHeight),
             baseline_right_eye_height := some (avg (s.baseline_right_eye_height.getD 0) f.rightEyeHeight),
             baseline_left_x_ratio := some (avg (s.baseline_left_x_ratio.getD 0) f.leftXRatio),
             baseline_right_x_ratio := some (avg (s.baseline_right_x_ratio.getD 0) f.rightXRatio) }

/-- Embeds `GazeAnalyzer.analyze_head_pose` for a frame whose landmarks are
present (the `if not landmarks` guard is handled by the pipeline step,
which only calls this with a detected frame). Returns the head label,
the `is_calibrated` flag of the return tuple, and the new state. -/
def analyzeHeadPose (f : Frame) (current_time : ℚ) (s : GAState) : String × Bool × GAState :=
  if ¬s.is_calibrated then
    match s.calibration_start with
    | none =>
        if ¬f.lookingForward then ("not_ready", false, s)
        else ("calibrating", false, clearBaselines (startCalibration current_time s))
    | some c =>
        if current_time - c < 1 then
          if ¬f.lookingForward then
            ("not_ready", false, clearBaselines (startCalibration current_time s))
          else ("calibrating", false, accumulateBaseline f s)
        else
          if anyBaselineUnset s then ("recalibrating", false, startCalibration current_time s)
          else ("center", true, finishCalibration current_time { s with is_calibrated := true })
  else
    let ms := checkMovement f s
    if ms.1 then ("recalibrating", false, startCalibration current_time ms.2)
    else if coreBaselineUnset ms.2 then ("recalibrating", false, startCalibration current_time ms.2)
    else
      let bn := ms.2.baseline_nose_pos.getD (0, 0)
      let x_diff := f.nose.1 - bn.1
      let y_diff := f.nose.2 - bn.2
      let xDirs : List String :=
        if ¬f.symmetric then
          if x_diff < -headXThreshold then ["left"]
          else if x_diff > headXThreshold then ["right"]
          else []
        else []
      let yDirs : List String :=
        if y_diff < -headYThreshold then ["up"]
        else if y_diff > headYThreshold then ["down"]
        else []
      (joinDirections (xDirs ++ yDirs), true, ms.2)

/-- Embeds `GazeAnalyzer._is_blinking`.  `now` is the value of `time.time()`
taken inside the method (wall-clock, not video time).  A zero baseline
height would raise `ZeroDivisionError` in the source, which the method
catches and turns into `False`; the EAR buffer has already been updated
at that point, exactly as in the source. -/
def isBlinking (f : Frame) (now : ℚ) (s : GAState) : Bool × GAState :=
  match s.baseline_left_eye_height, s.baseline_right_eye_height with
  | some blh, some brh =>
      let avg_ear := (f.leftEAR + f.rightEAR) / 2
      let frames0 := s.blink_frames ++ [avg_ear]
      let frames := if frames0.length > blinkBufferSize then frames0.tail else frames0
      let s1 := { s with blink_frames := frames }
      if blh = 0 ∨ brh = 0 then (false, s1)
      else
        let left_height_ratio := f.leftEyeHeight / blh
        let right_height_ratio := f.rightEyeHeight / brh
        let avg_height_ratio := (left_height_ratio + right_height_ratio) / 2
        let is_closed := avg_height_ratio < 3/10
        let was_open := frames.length ≥ 2 ∧ frames.getD (frames.length - 2) 0 > blinkThreshold
        match s1.eye_closed_start with
        | some start =>
            if ¬is_closed ∧ now - start < maxBlinkDuration then
              (true, { s1 with eye_closed_start := none,
                               blink_timestamps := s1.blink_timestamps ++ [now] })
            else if now - start ≥ maxBlinkDuration then
              (false, { s1 with eye_closed_start := none })
            else (false, s1)
        | none =>
            if is_closed ∧ was_open then (false, { s1 with eye_closed_start := some now })
            else (false, s1)
  | _, _ => (false, s)

/-- Embeds `GazeAnalyzer.analyze_gaze` for a frame with landmarks.  `wallNow`
is the value `time.time()` would return during this call (the source
uses the wall clock both inside `_is_blinking` and for the looking-down
debounce).  The x-ratio baselines are only read on calibrated states,
where calibration has set them. -/
def analyzeGaze (f : Frame) (wallNow : ℚ) (s : GAState) : String × GAState :=
  if ¬s.is_calibrated then ("center", s)
  else
    let bs := isBlinking f wallNow s
    if bs.1 then ("blink", { bs.2 with looking_down_start := none })
    else
      let s1 := bs.2
      match s1.baseline_left_eye_height, s1.baseline_right_eye_height with
      | some blh, some brh =>
          if blh = 0 ∨ brh = 0 then ("center", s1)
          else
            let left_height_ratio := f.leftEyeHeight / blh
            let right_height_ratio := f.rightEyeHeight / brh
            let avg_height_ratio := (left_height_ratio + right_height_ratio) / 2
            let blxr := s1.baseline_left_x_ratio.getD 0
            let brxr := s1.baseline_right_x_ratio.getD 0
            let left_x_ratio_change := (f.leftXRatio - blxr) / blxr
            let right_x_ratio_change := (f.rightXRatio - brxr) / brxr
            let avg_x_ratio_change := (left_x_ratio_change + right_x_ratio_change) / 2
            let xDirs : List String :=
              if avg_x_ratio_change < -gazeXThreshold then ["left"]
              else if avg_x_ratio_change > gazeXThreshold then ["right"]
              else []
            if avg_height_ratio > 1 + gazeYThreshold then
              (joinDirections (xDirs ++ ["up"]), { s1 with looking_down_start := none })
            else if avg_height_ratio < 1 - gazeYThreshold then
              match s1.looking_down_start with
              | none => (joinDirections xDirs, { s1 with looking_down_start := some wallNow })
              | some dstart =>
                  if wallNow - dstart ≥ minLookingDownDuration then
                    (joinDirections (xDirs ++ ["down"]), s1)
                  else (joinDirections xDirs, s1)
            else (joinDirections xDirs, { s1 with looking_down_start := none })
      | _, _ => ("center", s1)

/-! ### `analyzer.py` — the per-frame body of `process_video` -/

/-- All per-video mutable state of the pipeline. -/
structure PState where
  blink : BlinkLoggerState := {}
  gaze : GazeLoggerState := {}
  head : HeadLoggerState := {}
  anomaly : AnomalyLoggerState := {}
  analyzer : GAState := {}
  deriving DecidableEq, Repr

/-- One iteration of the `process_video` frame loop for a processed
frame: `current_time` is the frame's video time, `face_count` the YOLO
face count, `feat` the MediaPipe landmark features (`none` when
`get_landmarks` returned `None`), and `wallNow` the wall-clock value
`time.time()` returns during this frame's analysis. -/
def processFrame (current_time : ℚ) (face_count : ℤ) (feat : Option Frame)
    (wallNow : ℚ) (S : PState) : PState :=
  let S := { S with anomaly := updateAnomalyState current_time face_count S.anomaly }
  if face_count ≠ 1 then S
  else
    match feat with
    | none => S
    | some f =>
        let gz := analyzeGaze f wallNow S.analyzer
        let S := { S with analyzer := gz.2 }
        let S :=
          if gz.1 ≠ "blink" then { S with gaze := updateGaze current_time gz.1 S.gaze }
          else { S with blink := logBlink current_time S.blink }
        let hp := analyzeHeadPose f current_time S.analyzer
        let S := { S with analyzer := hp.2.2 }
        if hp.2.1 ∧ hp.1 ≠ "calibrating" then
          { S with head := updateHead current_time hp.1 S.head }
        else S

/-- The end-of-video flush in `process_video`: every logger's
`force_resolve` at the final timestamp. -/
def flushAll (final_time : ℚ) (S : PState) : PState :=
  { S with blink := blinkForceResolve final_time S.blink
           gaze := gazeForceResolve final_time S.gaze
           head := headForceResolve final_time S.head
           anomaly := anomalyForceResolve final_time S.anomaly }

/-! ### `analyzer.py` — `calculate_basic_scores` (concentration score) -/

/-- The concentration accumulators of `calculate_basic_scores`:
`total_gaze_time` sums all durations, `center_time` the durations of
entries whose direction is exactly `"center"`. -/
def totalGazeTime (logs : List GazeEntry) : ℚ :=
  logs.foldl (fun acc g => acc + (g.end_time - g.start_time)) 0

def centerTime (logs : List GazeEntry) : ℚ :=
  logs.foldl (fun acc g =>
    if g.direction = "center" then acc + (g.end_time - g.start_time) else acc) 0

/-- The `concentration_score` computed by `calculate_basic_scores`:
`ratio = center/total` when `total > 0`, else `0.8`; score is
`min(15, ratio * 15)`. -/
def concentrationScore (logs : List GazeEntry) : ℚ :=
  let total := totalGazeTime logs
  let ratio := if total > 0 then centerTime logs / total else 8/10
  min 15 (ratio * 15)

/-- The concentration formula in the words of the specification:
`min(15, 15 * center_time / total_gaze_time)`, with the ratio
defaulting to `0.8` when `total_gaze_time = 0`. -/
def specConcentrationScore (logs : List GazeEntry) : ℚ :=
  if totalGazeTime logs = 0 then min 15 ((8/10) * 15)
  else min 15 (15 * centerTime logs / totalGazeTime logs)

/-! ### `calc/total_eval_calc.py` — `calc_eye_contact_score` -/

/-- Embeds Python's `str.strip()` (whitespace removal at both ends),
applied by `calc_eye_contact_score` to each direction label. -/
def stripWhitespace (s : String) : String :=
  ⟨(((s.data.dropWhile Char.isWhitespace).reverse).dropWhile Char.isWhitespace).reverse⟩

/-- Embeds `total_time = max(log["end_time"] for log in logs)` (on a nonempty
log list; the function returns score 0 before this point when the list
is empty). -/
def totalTimeOf (logs : List GazeEntry) : ℚ :=
  match logs with
  | [] => 0
  | g :: rest => rest.foldl (fun acc x => max acc x.end_time) g.end_time

/-- The center-time accumulation: every interval whose stripped
direction is `"center"` contributes `max(0.2, end_time - start_time)`. -/
def eyeContactCenterTime (logs : List GazeEntry) : ℚ :=
  logs.foldl (fun acc g =>
    if stripWhitespace g.direction = "center" then acc + max (2/10) (g.end_time - g.start_time)
    else acc) 0

/-- Embeds `center_ratio = center_time / total_time if total_time > 0 else 0`. -/
def centerRatioOf (logs : List GazeEntry) : ℚ :=
  if totalTimeOf logs > 0 then eyeContactCenterTime logs / totalTimeOf logs else 0

/-- The score table of `calc_eye_contact_score` with the `for ... else`
fallback: the first row whose `min <= ratio < max` wins, and a ratio
matching no row scores 0. -/
def eyeContactScoreOfRatio (r : ℚ) : ℤ :=
  if 6/10 ≤ r ∧ r < 1 then 40
  else if 4/10 ≤ r ∧ r < 6/10 then 20
  else if 0 ≤ r ∧ r < 2/10 then 0
  else 0

/-- Embeds `calc_eye_contact_score`: score 0 for an empty log, otherwise the
table lookup on the center ratio. -/
def calcEyeContactScore (logs : List GazeEntry) : ℤ :=
  match logs with
  | [] => 0
  | _ => eyeContactScoreOfRatio (centerRatioOf logs)

/-! ### Run helpers and concrete inputs -/

/-- Feed a list of `(timestamp, direction)` updates to a `GazeLogger`. -/
def runGazeUpdates (us : List (ℚ × String)) (s : GazeLoggerState) : GazeLoggerState :=
  us.foldl (fun st u => updateGaze u.1 u.2 st) s

/-- Feed a list of `(timestamp, direction)` updates to a `HeadLogger`. -/
def runHeadUpdates (us : List (ℚ × String)) (s : HeadLoggerState) : HeadLoggerState :=
  us.foldl (fun st u => updateHead u.1 u.2 st) s

/-- Contiguity of a closed interval stream: each interval starts where
the previous one ended. -/
def contiguousLog (logs : List GazeEntry) : Prop :=
  logs.Chain' fun a b => a.end_time = b.start_time

/-- Outputs of a sequence of `analyze_head_pose` calls on `(frame, time)`
pairs, threading the analyzer state. -/
def headPoseOutputs : List (Frame × ℚ) → GAState → List String
  | [], _ => []
  | (f, t) :: rest, s =>
      (analyzeHeadPose f t s).1 :: headPoseOutputs rest (analyzeHeadPose f t s).2.2

/-- Final analyzer state of a sequence of `analyze_head_pose` calls. -/
def headPoseFinal : List (Frame × ℚ) → GAState → GAState
  | [], s => s
  | (f, t) :: rest, s => headPoseFinal rest (analyzeHeadPose f t s).2.2

/-- Number of recalibration restarts reported in a run (the
`"recalibrating"` outputs of `analyze_head_pose`). -/
def recalCount (fs : List (Frame × ℚ)) (s : GAState) : ℕ :=
  (headPoseOutputs fs s).count "recalibrating"

/-- Feed a list of `(video_time, face_count, features, wall_time)` frames
through the `process_video` loop body. -/
def runFrames (frames : List (ℚ × ℤ × Option Frame × ℚ)) (S : PState) : PState :=
  frames.foldl (fun st fr => processFrame fr.1 fr.2.1 fr.2.2.1 fr.2.2.2 st) S

end ModelVideo

namespace ModelVideo

/-! ### C1 / C2 — the segmenter re-open slip -/

/-- Gaze updates "center" at 0, "left" at 1 and 2, flushed at 3. -/
def c1GazeRun : GazeLoggerState :=
  gazeForceResolve 3 (runGazeUpdates [(0, "center"), (1, "left"), (2, "left")] {})

/-- The same update sequence fed to a `HeadLogger`. -/
def c1HeadRun : HeadLoggerState :=
  headForceResolve 3 (runHeadUpdates [(0, "center"), (1, "left"), (2, "left")] {})

/-- C1: the claim fails on the code. After the "center"→"left" change at
time 1, `_log_gaze` has set `active = False`, so the assignment of
`current_start_time := 1` is dead: the next update (time 2) re-opens the
interval at its own timestamp.  The closed "left" interval is `[2, 3]`,
not `[1, 3]` — no logged "left" interval has `start_time = 1`, for the
gaze and the head segmenter alike. -/
theorem update_gaze_reopen_start_time_bug :
    c1GazeRun.log = [⟨0, 1, "center", 0⟩, ⟨2, 3, "left", 1⟩] ∧
    c1HeadRun.log = [⟨0, 1, "center", 0⟩, ⟨2, 3, "left", 1⟩] ∧
    ¬ ∃ e ∈ c1GazeRun.log, e.direction = "left" ∧ e.start_time = 1 := by
  have h1 : c1GazeRun.log = [⟨0, 1, "center", 0⟩, ⟨2, 3, "left", 1⟩] := by
    simp only [c1GazeRun, runGazeUpdates, List.foldl]
    simp [updateGaze, logGaze, gazeForceResolve, round2, Rat.floor_def']
    try norm_num
  have h2 : c1HeadRun.log = [⟨0, 1, "center", 0⟩, ⟨2, 3, "left", 1⟩] := by
    simp only [c1HeadRun, runHeadUpdates, List.foldl]
    simp [updateHead, logHead, headForceResolve, round2, Rat.floor_def']
    try norm_num
  refine ⟨h1, h2, ?_⟩
  rw [h1]
  simp
  try norm_num

/-- Gaze updates "center" at 0, "left" at 2 and 3, flushed at 4. -/
def c2Run : GazeLoggerState :=
  gazeForceResolve 4 (runGazeUpdates [(0, "center"), (2, "left"), (3, "left")] {})

/-- C2: the claim fails on the code. Because the segmenter is left
inactive after a label change, the next interval re-opens at the next
update's timestamp: the closed stream is `[0,2]`, `[3,4]` — not
contiguous, and the durations sum to 3 while the span from the first
update (0) to the flush (4) is 4. -/
theorem gaze_stream_not_contiguous :
    c2Run.log = [⟨0, 2, "center", 0⟩, ⟨3, 4, "left", 1⟩] ∧
    ¬ contiguousLog c2Run.log ∧
    totalGazeTime c2Run.log = 3 ∧ (3 : ℚ) ≠ 4 - 0 := by
  have hlog : c2Run.log = [⟨0, 2, "center", 0⟩, ⟨3, 4, "left", 1⟩] := by
    simp only [c2Run, runGazeUpdates, List.foldl]
    simp [updateGaze, logGaze, gazeForceResolve, round2, Rat.floor_def']
    try norm_num
  refine ⟨hlog, ?_, ?_, by norm_num⟩
  · rw [hlog]
    simp [contiguousLog]
    try norm_num
  · rw [hlog]
    simp [totalGazeTime]
    try norm_num

/-! ### C9 — anomaly episode persistence -/

/-- The reason string `update_state` derives from a face count (read only
when the count differs from 1). -/
def reasonFor (face_count : ℤ) : String :=
  if face_count > 1 then "multiple_faces_detected" else "no_face"

/-- An anomaly run: two faces at time 0, three faces at time 1. -/
def c9Run : AnomalyLoggerState := updateAnomalyState 1 3 (updateAnomalyState 0 2 {})

/-- C9: the claim fails on the code. A multi-face episode opened with
`face_count = 2` at time 0 is closed by the `face_count = 3` update at
time 1 (same reason, different count), even though that update has
neither `face_count = 1` nor is a `force_resolve`; a fresh episode with
`face_count = 3` is opened in its place. -/
theorem same_reason_count_change_closes_episode :
    (updateAnomalyState 0 2 ({} : AnomalyLoggerState)).active = true ∧
    c9Run.log = [⟨0, 1, "multiple_faces_detected", 2, 0⟩] ∧
    c9Run.active = true ∧ c9Run.current_face_count = some 3 := by
  refine ⟨?_, ?_, ?_, ?_⟩ <;>
    · simp [c9Run, updateAnomalyState, beginAnomaly, resolveAnomaly,
        AnomalyIndices.get, AnomalyIndices.set, round2, Rat.floor_def']
      try norm_num

/-- C9 (amended): while an episode is active, an update whose face count
falls in the other anomaly category is a complete no-op on the
`AnomalyLogger` state, and an `update_state` call can close the episode
(grow the log) only when `face_count = 1` or when the reason is
unchanged and the exact face count differs from the recorded one. -/
theorem anomaly_episode_persistence (s : AnomalyLoggerState) (t : ℚ) (fc : ℤ)
    (ha : s.active = true) :
    (fc ≠ 1 → s.current_reason ≠ some (reasonFor fc) → updateAnomalyState t fc s = s) ∧
    ((updateAnomalyState t fc s).log ≠ s.log →
      fc = 1 ∨ (s.current_reason = some (reasonFor fc) ∧
                s.current_face_count ≠ some fc)) := by
  constructor
  · intro hfc hr
    simp only [reasonFor] at hr
    simp only [updateAnomalyState]
    rw [if_neg hfc]
    simp [ha, hr]
  · intro hlog
    by_cases hfc : fc = 1
    · exact Or.inl hfc
    right
    by_contra hcon
    push_neg at hcon
    apply hlog
    simp only [reasonFor] at hcon
    simp only [updateAnomalyState]
    rw [if_neg hfc]
    simp only [ha, Bool.not_true, Bool.false_eq_true, not_true_eq_false, if_false,
      ite_eq_right_iff]
    by_cases hc : s.current_reason = some (if fc > 1 then "multiple_faces_detected"
        else "no_face") ∧ s.current_face_count ≠ some fc
    · exact absurd (hcon hc.1) hc.2
    · simp [hc]

/-- Witness for `anomaly_episode_persistence`: a two-face update leaves
an active no-face episode untouched. -/
theorem anomaly_episode_persistence_witness :
    updateAnomalyState 1 2 (beginAnomaly 0 "no_face" 0 {}) =
      beginAnomaly 0 "no_face" 0 {} :=
  (anomaly_episode_persistence (beginAnomaly 0 "no_face" 0 {}) 1 2
      (by simp [beginAnomaly])).1
    (by norm_num)
    (by
      have h : reasonFor 2 = "multiple_faces_detected" := by norm_num [reasonFor]
      simp [beginAnomaly, h])

/-! ### C5 — frames without landmarks -/

/-- A pipeline state whose anomaly segmenter has an open "no face"
episode: the result of a face-count-0 frame at time 0. -/
def c5Start : PState := processFrame 0 0 none 0 {}

/-- The state after a frame at time 1 whose face count is 1 but whose
landmark detection failed (`get_landmarks` returned `None`). -/
def c5After : PState := processFrame 1 1 none 1 c5Start

/-- C5: the claim fails on the code for the anomaly segmenter. The
loop body calls `anomaly_logger.update_state` before landmark detection,
so a landmark-failure frame with `face_count = 1` resolves an open
anomaly episode: here the no-face episode opened at time 0 is closed at
time 1 by exactly such a frame. -/
theorem landmark_missing_frame_resolves_anomaly :
    c5Start.anomaly.active = true ∧
    c5After.anomaly.active = false ∧
    c5After.anomaly.log = [⟨0, 1, "no_face", 0, 0⟩] := by
  refine ⟨?_, ?_, ?_⟩ <;>
    · simp [c5After, c5Start, processFrame, updateAnomalyState, beginAnomaly,
        resolveAnomaly, AnomalyIndices.get, AnomalyIndices.set, round2, Rat.floor_def']
      try norm_num

/-- C5 (amended): a frame whose landmark detection fails (face count 1,
features `none`) leaves the blink, gaze and head loggers and the whole
analyzer/calibration state untouched — no classifier runs — but the
anomaly segmenter is still updated with the frame's face count, so such
a frame can resolve an open anomaly episode. -/
theorem landmark_missing_frame_effect (S : PState) (t wallNow : ℚ) :
    (processFrame t 1 none wallNow S).blink = S.blink ∧
    (processFrame t 1 none wallNow S).gaze = S.gaze ∧
    (processFrame t 1 none wallNow S).head = S.head ∧
    (processFrame t 1 none wallNow S).analyzer = S.analyzer ∧
    (processFrame t 1 none wallNow S).anomaly = updateAnomalyState t 1 S.anomaly := by
  simp [processFrame]

/-! ### C8 — the concentration score -/

/-- The worked example from the specification: center for `[0,10]` and
`[12,60]`, left for `[10,12]`. -/
def c8Example : List GazeEntry :=
  [⟨0, 10, "center", 0⟩, ⟨10, 12, "left", 1⟩, ⟨12, 60, "center", 2⟩]

theorem totalGazeTime_eq_sum (logs : List GazeEntry) :
    totalGazeTime logs = (logs.map fun g => g.end_time - g.start_time).sum := by
  have h : ∀ a : ℚ, logs.foldl (fun acc g => acc + (g.end_time - g.start_time)) a
      = a + (logs.map fun g => g.end_time - g.start_time).sum := by
    induction logs with
    | nil => intro a; simp
    | cons g rest ih => intro a; simp [List.foldl, ih]; ring
  simpa using h 0

theorem totalGazeTime_nonneg (logs : List GazeEntry)
    (h : ∀ e ∈ logs, e.start_time ≤ e.end_time) : 0 ≤ totalGazeTime logs := by
  rw [totalGazeTime_eq_sum]
  apply List.sum_nonneg
  intro x hx
  obtain ⟨e, he, rfl⟩ := List.mem_map.mp hx
  have := h e he
  linarith

/-- C8: for well-formed interval streams (each `start ≤ end`), the
`concentration_score` of `calculate_basic_scores` is exactly the
specified `min(15, 15 * center_time / total_gaze_time)` with the ratio
defaulting to 0.8 at `total_gaze_time = 0`; on the spec's worked example
the score is 14.5. -/
theorem concentration_score_spec :
    (∀ logs : List GazeEntry, (∀ e ∈ logs, e.start_time ≤ e.end_time) →
      concentrationScore logs = specConcentrationScore logs) ∧
    concentrationScore c8Example = 29/2 := by
  constructor
  · intro logs h
    have hnn := totalGazeTime_nonneg logs h
    by_cases h0 : totalGazeTime logs = 0
    · simp [concentrationScore, specConcentrationScore, h0]
    · have hpos : 0 < totalGazeTime logs := lt_of_le_of_ne hnn (Ne.symm h0)
      simp only [concentrationScore, specConcentrationScore, if_pos hpos, if_neg h0]
      rw [div_mul_eq_mul_div, mul_comm]
  · simp [concentrationScore, c8Example, totalGazeTime, centerTime]
    norm_num

/-- Witness for `concentration_score_spec` at the worked example. -/
theorem concentration_score_spec_witness :
    concentrationScore c8Example = specConcentrationScore c8Example :=
  concentration_score_spec.1 c8Example (by
    intro e he
    simp [c8Example] at he
    rcases he with h | h | h <;> · rw [h]; norm_num)

/-! ### C10 — the eye-contact score fall-through -/

/-- A gaze log whose single interval is labeled "center". -/
def c10Example : List GazeEntry := [⟨0, 10, "center", 0⟩]

/-- C10: any nonempty gaze stream whose padded center ratio reaches 1.0
falls through every row of the eye-contact score table (the top row
requires `ratio < 1.0`) and scores 0; the all-center one-interval stream
`[0,10]` has ratio exactly 1 and scores 0. -/
theorem eye_contact_center_ratio_fallthrough :
    (∀ logs : List GazeEntry, logs ≠ [] → 1 ≤ centerRatioOf logs →
      calcEyeContactScore logs = 0) ∧
    (centerRatioOf c10Example = 1 ∧ calcEyeContactScore c10Example = 0 ∧
      ∀ e ∈ c10Example, e.direction = "center") := by
  have hgen : ∀ logs : List GazeEntry, logs ≠ [] → 1 ≤ centerRatioOf logs →
      calcEyeContactScore logs = 0 := by
    intro logs hne hr
    match logs, hne with
    | g :: rest, _ =>
      show eyeContactScoreOfRatio (centerRatioOf (g :: rest)) = 0
      set r := centerRatioOf (g :: rest) with hrdef
      unfold eyeContactScoreOfRatio
      have h1 : ¬(6/10 ≤ r ∧ r < 1) := by rintro ⟨_, hlt⟩; linarith
      have h2 : ¬(4/10 ≤ r ∧ r < 6/10) := by rintro ⟨_, hlt⟩; linarith
      have h3 : ¬(0 ≤ r ∧ r < 2/10) := by rintro ⟨_, hlt⟩; linarith
      simp [h1, h2, h3]
  have hratio : centerRatioOf c10Example = 1 := by
    have hstrip : stripWhitespace "center" = "center" := by decide
    simp [centerRatioOf, c10Example, totalTimeOf, eyeContactCenterTime, hstrip]
    norm_num
  refine ⟨hgen, hratio, hgen c10Example (by simp [c10Example]) (le_of_eq hratio.symm), ?_⟩
  intro e he
  simp [c10Example] at he
  rw [he]

/-- Witness for `eye_contact_center_ratio_fallthrough` at the all-center
stream. -/
theorem eye_contact_center_ratio_fallthrough_witness :
    calcEyeContactScore c10Example = 0 :=
  eye_contact_center_ratio_fallthrough.1 c10Example (by simp [c10Example])
    (le_of_eq eye_contact_center_ratio_fallthrough.2.1.symm)

/-! ### Concrete frames and a calibrated analyzer state -/

/-- A forward-looking frame whose features serve as the calibration
baseline in the concrete scenarios. -/
def baseFrame : Frame :=
  { nose := (1/2, 1/2), leftIris := (1/2, 1/2), rightIris := (1/2, 1/2),
    faceWidth := 1/5, neckPos := (1/2, 4/5), leftEyeHeight := 1/20,
    rightEyeHeight := 1/20, leftXRatio := 1/2, rightXRatio := 1/2,
    leftEAR := 2/5, rightEAR := 2/5, symmetric := true, lookingForward := true }

/-- The base frame with prescribed eye-aspect ratio and eye height. -/
def eyeFrame (ear h : ℚ) : Frame :=
  { baseFrame with leftEAR := ear, rightEAR := ear,
                   leftEyeHeight := h, rightEyeHeight := h }

/-- The base frame with a prescribed face width. -/
def widthFrame (w : ℚ) : Frame := { baseFrame with faceWidth := w }

/-- The analyzer state after a completed 1-second calibration on
`baseFrame` (see `calibState_reachable`): calibrated, with every
baseline equal to the base frame's features. -/
def calibState : GAState :=
  { calibration_start := some 0, is_calibrated := true,
    baseline_nose_pos := some (1/2, 1/2), baseline_left_iris := some (1/2, 1/2),
    baseline_right_iris := some (1/2, 1/2), calibration_count := 1,
    baseline_face_width := some (1/5), baseline_neck_pos := some (1/2, 4/5),
    baseline_left_eye_height := some (1/20), baseline_right_eye_height := some (1/20),
    baseline_left_x_ratio := some (1/2), baseline_right_x_ratio := some (1/2),
    movement_count := 0, blink_frames := [], eye_closed_start := none,
    looking_down_start := none, blink_timestamps := [], recalib_start_time := none,
    recalib_log := [(0, 1)] }

/-- Calibrating on `baseFrame` at video times 0, 0.5 and 1 produces
exactly `calibState`. -/
theorem calibState_reachable :
    headPoseFinal [(baseFrame, 0), (baseFrame, 1/2), (baseFrame, 1)] {} = calibState := by
  simp only [headPoseFinal]
  norm_num [analyzeHeadPose, startCalibration, clearBaselines, accumulateBaseline,
    anyBaselineUnset, coreBaselineUnset, finishCalibration, checkMovement,
    joinDirections, baseFrame, calibState, round3, Rat.floor_def']
  try simp

/-! ### C3 — wall-clock dependence of the gaze classifier -/

/-- A frame whose eye height is a quarter of the calibrated baseline
(height ratio 0.25, the looking-down zone) with open-eye EAR. -/
def c3Frame : Frame := eyeFrame (2/5) (1/80)

/-- C3: the claim fails on the code. `analyze_gaze` (and `_is_blinking`)
read `time.time()`: feeding the identical two frames with wall-clock
calls at 0 and 0.5 seconds classifies the second frame "center", while
the same two frames with wall-clock calls at 0 and 1.5 seconds classify
it "down" — the event stream depends on processing pace, not only on the
frame data. -/
theorem analyze_gaze_depends_on_wall_clock :
    (analyzeGaze c3Frame (1/2) (analyzeGaze c3Frame 0 calibState).2).1 = "center" ∧
    (analyzeGaze c3Frame (3/2) (analyzeGaze c3Frame 0 calibState).2).1 = "down" ∧
    ("center" : String) ≠ "down" := by
  refine ⟨?_, ?_, by simp⟩ <;>
    · norm_num [analyzeGaze, isBlinking, joinDirections, calibState, c3Frame, eyeFrame,
        baseFrame, blinkThreshold, blinkBufferSize, maxBlinkDuration,
        minLookingDownDuration, gazeXThreshold, gazeYThreshold]
      try decide

/-! ### C4 — the blink scenario -/

/-- An open-eye frame of the blink scenario (EAR 0.4, height 0.05). -/
def fOpen : Frame := eyeFrame (2/5) (1/20)

/-- A closed-eye frame of the blink scenario (EAR 0.1, height 0.0125,
i.e. height ratio 0.25 against the calibrated baseline 0.05). -/
def fClosed : Frame := eyeFrame (1/10) (1/80)

/-- The spec's blink scenario as pipeline input: baseline eye height
0.05 (from `calibState`), height ratios `[1.0, 1.0, 0.25, 0.25, 1.0]`
at video times `[0, 0.1, 0.2, 0.3, 0.4]`, one face per frame, EAR open
before the closure, wall clock equal to video time (so the closure
lasts 0.2 s on the clock the detector reads). -/
def c4Frames : List (ℚ × ℤ × Option Frame × ℚ) :=
  [(0, 1, some fOpen, 0),
   (1/10, 1, some fOpen, 1/10),
   (2/10, 1, some fClosed, 2/10),
   (3/10, 1, some fClosed, 3/10),
   (4/10, 1, some fOpen, 4/10)]

/-- The pipeline state after the blink scenario, starting calibrated. -/
def c4Run : PState := runFrames c4Frames { analyzer := calibState }

/-- Gaze logger holding the open "center" interval started at time 0. -/
def openGaze : GazeLoggerState :=
  { active := true, current_start_time := some 0,
    current_direction := some "center", gaze_index := 0, log := [] }

/-- Head logger holding the open "center" interval started at time 0. -/
def openHead : HeadLoggerState :=
  { active := true, current_start_time := some 0,
    current_direction := some "center", head_index := 0, log := [] }

def c4A1 : GAState := { calibState with blink_frames := [2/5] }

def c4A2 : GAState := { calibState with blink_frames := [2/5, 2/5] }

def c4A3 : GAState :=
  { calibState with
      blink_frames := [2/5, 2/5, 1/10]
      eye_closed_start := some (2/10)
      looking_down_start := some (2/10) }

def c4A4 : GAState :=
  { calibState with
      blink_frames := [2/5, 2/5, 1/10, 1/10]
      eye_closed_start := some (2/10)
      looking_down_start := some (2/10) }

def c4A5 : GAState :=
  { calibState with
      blink_frames := [2/5, 2/5, 1/10, 1/10, 2/5]
      blink_timestamps := [4/10] }

theorem anomaly_upd_one (t : ℚ) :
    updateAnomalyState t 1 ({} : AnomalyLoggerState) = {} := by
  simp [updateAnomalyState]

theorem upd_gaze_center (t : ℚ) : updateGaze t "center" openGaze = openGaze := by
  simp [updateGaze, openGaze]

theorem upd_head_center (t : ℚ) : updateHead t "center" openHead = openHead := by
  simp [updateHead, openHead]

theorem c4_gaze1 : analyzeGaze fOpen 0 calibState = ("center", c4A1) := by
  norm_num [analyzeGaze, isBlinking, joinDirections, calibState, c4A1, fOpen, eyeFrame,
    baseFrame, blinkThreshold, blinkBufferSize, maxBlinkDuration,
    minLookingDownDuration, gazeXThreshold, gazeYThreshold]
  try simp

theorem c4_gaze2 : analyzeGaze fOpen (1/10) c4A1 = ("center", c4A2) := by
  norm_num [analyzeGaze, isBlinking, joinDirections, calibState, c4A1, c4A2, fOpen,
    eyeFrame, baseFrame, blinkThreshold, blinkBufferSize, maxBlinkDuration,
    minLookingDownDuration, gazeXThreshold, gazeYThreshold]
  try simp

theorem c4_gaze3 : analyzeGaze fClosed (2/10) c4A2 = ("center", c4A3) := by
  norm_num [analyzeGaze, isBlinking, joinDirections, calibState, c4A2, c4A3, fClosed,
    eyeFrame, baseFrame, blinkThreshold, blinkBufferSize, maxBlinkDuration,
    minLookingDownDuration, gazeXThreshold, gazeYThreshold]
  try simp

theorem c4_gaze4 : analyzeGaze fClosed (3/10) c4A3 = ("center", c4A4) := by
  norm_num [analyzeGaze, isBlinking, joinDirections, calibState, c4A3, c4A4, fClosed,
    eyeFrame, baseFrame, blinkThreshold, blinkBufferSize, maxBlinkDuration,
    minLookingDownDuration, gazeXThreshold, gazeYThreshold]
  try simp

theorem c4_gaze5 : analyzeGaze fOpen (4/10) c4A4 = ("blink", c4A5) := by
  norm_num [analyzeGaze, isBlinking, joinDirections, calibState, c4A4, c4A5, fOpen,
    eyeFrame, baseFrame, blinkThreshold, blinkBufferSize, maxBlinkDuration,
    minLookingDownDuration, gazeXThreshold, gazeYThreshold]
  try simp

theorem c4_head1 : analyzeHeadPose fOpen 0 c4A1 = ("center", true, c4A1) := by
  norm_num [analyzeHeadPose, checkMovement, coreBaselineUnset, joinDirections,
    calibState, c4A1, fOpen, eyeFrame, baseFrame, headXThreshold, headYThreshold,
    faceWidthTolerance, maxMovementCount]
  try simp

theorem c4_head2 : analyzeHeadPose fOpen (1/10) c4A2 = ("center", true, c4A2) := by
  norm_num [analyzeHeadPose, checkMovement, coreBaselineUnset, joinDirections,
    calibState, c4A2, fOpen, eyeFrame, baseFrame, headXThreshold, headYThreshold,
    faceWidthTolerance, maxMovementCount]
  try simp

theorem c4_head3 : analyzeHeadPose fClosed (2/10) c4A3 = ("center", true, c4A3) := by
  norm_num [analyzeHeadPose, checkMovement, coreBaselineUnset, joinDirections,
    calibState, c4A3, fClosed, eyeFrame, baseFrame, headXThreshold, headYThreshold,
    faceWidthTolerance, maxMovementCount]
  try simp

theorem c4_head4 : analyzeHeadPose fClosed (3/10) c4A4 = ("center", true, c4A4) := by
  norm_num [analyzeHeadPose, checkMovement, coreBaselineUnset, joinDirections,
    calibState, c4A4, fClosed, eyeFrame, baseFrame, headXThreshold, headYThreshold,
    faceWidthTolerance, maxMovementCount]
  try simp

theorem c4_head5 : analyzeHeadPose fOpen (4/10) c4A5 = ("center", true, c4A5) := by
  norm_num [analyzeHeadPose, checkMovement, coreBaselineUnset, joinDirections,
    calibState, c4A5, fOpen, eyeFrame, baseFrame, headXThreshold, headYThreshold,
    faceWidthTolerance, maxMovementCount]
  try simp

theorem c4_step1 : processFrame 0 1 (some fOpen) 0 { analyzer := calibState } =
    { blink := {}, gaze := openGaze, head := openHead, anomaly := {}, analyzer := c4A1 } := by
  have h1 : (("center" : String) ≠ "blink") = True := by simp
  have h2 : ((true = true) ∧ (("center" : String) ≠ "calibrating")) = True := by simp
  have h3 : updateGaze 0 "center" ({} : GazeLoggerState) = openGaze := by
    simp [updateGaze, openGaze]
  have h4 : updateHead 0 "center" ({} : HeadLoggerState) = openHead := by
    simp [updateHead, openHead]
  simp only [processFrame, anomaly_upd_one, c4_gaze1, c4_head1, h1, h2, h3, h4,
    if_true, ite_true]
  constructor

theorem c4_step2 : processFrame (1/10) 1 (some fOpen) (1/10)
      { blink := {}, gaze := openGaze, head := openHead, anomaly := {}, analyzer := c4A1 } =
    { blink := {}, gaze := openGaze, head := openHead, anomaly := {}, analyzer := c4A2 } := by
  have h1 : (("center" : String) ≠ "blink") = True := by simp
  have h2 : ((true = true) ∧ (("center" : String) ≠ "calibrating")) = True := by simp
  simp only [processFrame, anomaly_upd_one, c4_gaze2, c4_head2, h1, h2,
    upd_gaze_center, upd_head_center, if_true, ite_true]
  constructor

theorem c4_step3 : processFrame (2/10) 1 (some fClosed) (2/10)
      { blink := {}, gaze := openGaze, head := openHead, anomaly := {}, analyzer := c4A2 } =
    { blink := {}, gaze := openGaze, head := openHead, anomaly := {}, analyzer := c4A3 } := by
  have h1 : (("center" : String) ≠ "blink") = True := by simp
  have h2 : ((true = true) ∧ (("center" : String) ≠ "calibrating")) = True := by simp
  simp only [processFrame, anomaly_upd_one, c4_gaze3, c4_head3, h1, h2,
    upd_gaze_center, upd_head_center, if_true, ite_true]
  constructor

theorem c4_step4 : processFrame (3/10) 1 (some fClosed) (3/10)
      { blink := {}, gaze := openGaze, head := openHead, anomaly := {}, analyzer := c4A3 } =
    { blink := {}, gaze := openGaze, head := openHead, anomaly := {}, analyzer := c4A4 } := by
  have h1 : (("center" : String) ≠ "blink") = True := by simp
  have h2 : ((true = true) ∧ (("center" : String) ≠ "calibrating")) = True := by simp
  simp only [processFrame, anomaly_upd_one, c4_gaze4, c4_head4, h1, h2,
    upd_gaze_center, upd_head_center, if_true, ite_true]
  constructor

theorem c4_step5 : processFrame (4/10) 1 (some fOpen) (4/10)
      { blink := {}, gaze := openGaze, head := openHead, anomaly := {}, analyzer := c4A4 } =
    { blink := { blink_index := 1, log := [⟨2/5, 1⟩] }, gaze := openGaze,
      head := openHead, anomaly := {}, analyzer := c4A5 } := by
  have h1 : (("blink" : String) ≠ "blink") = False := by simp
  have h2 : ((true = true) ∧ (("center" : String) ≠ "calibrating")) = True := by simp
  have h3 : logBlink (4/10) ({} : BlinkLoggerState) =
      { blink_index := 1, log := [⟨2/5, 1⟩] } := by
    norm_num [logBlink, round2, Rat.floor_def']
  simp only [processFrame, anomaly_upd_one, c4_gaze5, c4_head5, h1, h2, h3,
    upd_head_center, if_true, ite_true, if_false, ite_false]
  constructor

theorem c4Run_eq : c4Run =
    { blink := { blink_index := 1, log := [⟨2/5, 1⟩] }, gaze := openGaze,
      head := openHead, anomaly := {}, analyzer := c4A5 } := by
  show runFrames c4Frames { analyzer := calibState } = _
  simp only [runFrames, c4Frames, List.foldl]
  rw [c4_step1, c4_step2, c4_step3, c4_step4, c4_step5]

/-- C4: the claim fails on the code at its own scenario. The blink is
confirmed on the frame where the eye reopens, at video time 0.4 — the
single logged `BlinkEvent` carries time 0.4 (= 2/5), not 0.3. -/
theorem blink_scenario_time_not_0_3 :
    c4Run.blink.log = [⟨2/5, 1⟩] ∧
    ¬ ∃ e ∈ c4Run.blink.log, e.time = 3/10 := by
  rw [c4Run_eq]
  refine ⟨rfl, ?_⟩
  simp
  norm_num

/-- C4 (amended): on the scenario the pipeline emits exactly one
`BlinkEvent`, with time 0.4 and `blink_index = 1`; no gaze interval
labeled "down" is logged, and the single open gaze interval is labeled
"center". -/
theorem blink_scenario_single_event_at_0_4 :
    c4Run.blink.log = [⟨2/5, 1⟩] ∧
    c4Run.gaze.log.filter (fun e => e.direction = "down") = [] ∧
    c4Run.gaze.current_direction = some "center" := by
  rw [c4Run_eq]
  refine ⟨rfl, ?_, rfl⟩
  simp [openGaze]

/-! ### Shared head-pose step lemmas for the drift scenarios (C6, C7) -/

/-- A frame whose face width deviates 50% from the calibrated baseline
width 0.2 (drift violation); all other features at baseline. -/
def vFrame : Frame := widthFrame (3/10)

def calib1 : GAState := { calibState with movement_count := 1 }

def calib2 : GAState := { calibState with movement_count := 2 }

def calib3 : GAState := { calibState with movement_count := 3 }

def calib4 : GAState := { calibState with movement_count := 4 }

/-- The state right after a movement-triggered `start_calibration`:
flags and counters reset, every baseline field still holding the old
calibrated values (the movement path never clears them). -/
def postTrigger (t : ℚ) : GAState :=
  { calibState with
      calibration_start := some t
      is_calibrated := false
      calibration_count := 0
      recalib_start_time := some t }

theorem viol_step1 (t : ℚ) :
    analyzeHeadPose vFrame t calibState = ("center", true, calib1) := by
  norm_num [analyzeHeadPose, checkMovement, coreBaselineUnset, joinDirections,
    calibState, calib1, vFrame, widthFrame, baseFrame, headXThreshold, headYThreshold,
    faceWidthTolerance, maxMovementCount, abs_of_nonneg]
  try simp

theorem viol_step2 (t : ℚ) :
    analyzeHeadPose vFrame t calib1 = ("center", true, calib2) := by
  norm_num [analyzeHeadPose, checkMovement, coreBaselineUnset, joinDirections,
    calibState, calib1, calib2, vFrame, widthFrame, baseFrame, headXThreshold,
    headYThreshold, faceWidthTolerance, maxMovementCount, abs_of_nonneg]
  try simp

theorem viol_step3 (t : ℚ) :
    analyzeHeadPose vFrame t calib2 = ("center", true, calib3) := by
  norm_num [analyzeHeadPose, checkMovement, coreBaselineUnset, joinDirections,
    calibState, calib2, calib3, vFrame, widthFrame, baseFrame, headXThreshold,
    headYThreshold, faceWidthTolerance, maxMovementCount, abs_of_nonneg]
  try simp

theorem viol_step4 (t : ℚ) :
    analyzeHeadPose vFrame t calib3 = ("center", true, calib4) := by
  norm_num [analyzeHeadPose, checkMovement, coreBaselineUnset, joinDirections,
    calibState, calib3, calib4, vFrame, widthFrame, baseFrame, headXThreshold,
    headYThreshold, faceWidthTolerance, maxMovementCount, abs_of_nonneg]
  try simp

theorem viol_step5 (t : ℚ) :
    analyzeHeadPose vFrame t calib4 = ("recalibrating", false, postTrigger t) := by
  norm_num [analyzeHeadPose, checkMovement, coreBaselineUnset, joinDirections,
    startCalibration, calibState, calib4, postTrigger, vFrame, widthFrame, baseFrame,
    headXThreshold, headYThreshold, faceWidthTolerance, maxMovementCount, abs_of_nonneg]
  try simp

/-! ### C6 — baselines across recalibration -/

/-- The analyzer state after the first calibration frame. -/
def c6B1 : GAState := { calibration_start := some 0, recalib_start_time := some 0 }

/-- The analyzer state after one accumulation frame on `baseFrame`. -/
def c6B2 : GAState :=
  { calibration_start := some 0
    calibration_count := 1
    baseline_nose_pos := some (1/2, 1/2)
    baseline_left_iris := some (1/2, 1/2)
    baseline_right_iris := some (1/2, 1/2)
    baseline_face_width := some (1/5)
    baseline_neck_pos := some (1/2, 4/5)
    baseline_left_eye_height := some (1/20)
    baseline_right_eye_height := some (1/20)
    baseline_left_x_ratio := some (1/2)
    baseline_right_x_ratio := some (1/2)
    recalib_start_time := some 0 }

/-- The state after the whole C6 run: re-finalized with the old
baseline and zero freshly accumulated samples. -/
def c6Final : GAState :=
  { calibState with
      calibration_start := some (3/2)
      calibration_count := 0
      recalib_log := [(0, 1), (3/2, 13/5)] }

theorem cal_step1 : analyzeHeadPose baseFrame 0 {} = ("calibrating", false, c6B1) := by
  norm_num [analyzeHeadPose, startCalibration, clearBaselines, baseFrame, c6B1]
  try simp

theorem cal_step2 : analyzeHeadPose baseFrame (1/2) c6B1 = ("calibrating", false, c6B2) := by
  norm_num [analyzeHeadPose, accumulateBaseline, baseFrame, c6B1, c6B2]
  try simp

theorem cal_step3 : analyzeHeadPose baseFrame 1 c6B2 = ("center", true, calibState) := by
  norm_num [analyzeHeadPose, anyBaselineUnset, finishCalibration, round3,
    Rat.floor_def', c6B2, calibState]
  try simp

theorem c6_refinal :
    analyzeHeadPose vFrame (26/10) (postTrigger (3/2)) = ("center", true, c6Final) := by
  norm_num [analyzeHeadPose, anyBaselineUnset, finishCalibration, round3,
    Rat.floor_def', postTrigger, calibState, c6Final, abs_of_nonneg]
  try simp

/-- The C6 scenario: calibrate on `baseFrame` (times 0–1), then five
drift-violating frames (times 1.1–1.5) triggering recalibration, then a
1.1-second gap before the next analyzed frame at time 2.6. -/
def c6Frames : List (Frame × ℚ) :=
  [(baseFrame, 0), (baseFrame, 1/2), (baseFrame, 1), (vFrame, 11/10), (vFrame, 12/10),
   (vFrame, 13/10), (vFrame, 14/10), (vFrame, 3/2), (vFrame, 26/10)]

/-- C6: the claim fails on the code. The movement-triggered restart does
not clear the baseline fields, and because more than 1.0 s of video time
passes before the next analyzed frame, the end-of-window check finds
every (stale) baseline still set and re-finalizes it unchanged: after
the run the analyzer is calibrated again with the pre-drift baseline
(face width 0.2) and `calibration_count = 0` — not one sample of the
"rebuilt" baseline was freshly accumulated. -/
theorem recalibration_gap_keeps_old_baseline :
    headPoseOutputs c6Frames {} =
      ["calibrating", "calibrating", "center", "center", "center", "center", "center",
       "recalibrating", "center"] ∧
    (headPoseFinal c6Frames {}).is_calibrated = true ∧
    (headPoseFinal c6Frames {}).baseline_face_width = some (1/5) ∧
    (headPoseFinal c6Frames {}).calibration_count = 0 := by
  have hfin : headPoseFinal c6Frames {} = c6Final := by
    simp only [c6Frames, headPoseFinal, cal_step1, cal_step2, cal_step3,
      viol_step1, viol_step2, viol_step3, viol_step4, viol_step5, c6_refinal]
  have hout : headPoseOutputs c6Frames {} =
      ["calibrating", "calibrating", "center", "center", "center", "center", "center",
       "recalibrating", "center"] := by
    simp only [c6Frames, headPoseOutputs, cal_step1, cal_step2, cal_step3,
      viol_step1, viol_step2, viol_step3, viol_step4, viol_step5, c6_refinal]
  refine ⟨hout, ?_, ?_, ?_⟩ <;> simp [hfin, c6Final, calibState]

/-- The nine baseline fields of the analyzer state. -/
def baselinesOf (s : GAState) :=
  (s.baseline_nose_pos, s.baseline_left_iris, s.baseline_right_iris,
   s.baseline_face_width, s.baseline_neck_pos, s.baseline_left_eye_height,
   s.baseline_right_eye_height, s.baseline_left_x_ratio, s.baseline_right_x_ratio)

/-- The baseline fields a first accumulation installs from a frame. -/
def frameBaselines (f : Frame) :=
  (some f.nose, some f.leftIris, some f.rightIris, some f.faceWidth, some f.neckPos,
   some f.leftEyeHeight, some f.rightEyeHeight, some f.leftXRatio, some f.rightXRatio)

theorem checkMovement_baselines (f : Frame) (s : GAState) :
    baselinesOf (checkMovement f s).2 = baselinesOf s := by
  cases hw : s.baseline_face_width <;> cases hn : s.baseline_neck_pos <;>
    · simp only [checkMovement, hw, hn, baselinesOf]
      try split_ifs <;> simp

theorem startCalibration_baselines (t : ℚ) (s : GAState) :
    baselinesOf (startCalibration t s) = baselinesOf s := by
  simp [startCalibration, baselinesOf]

/-- C6 (amended): while calibrated, no frame update changes any baseline
field (even a frame that triggers recalibration leaves them in place);
and after any restart (where `calibration_count` is 0), the first
accumulation frame installs exactly the frame's own values — the old
baseline values carry weight zero.  (When no accumulation frame arrives
inside the 1.0 s window, however, the stale baseline is re-finalized
unchanged, as `recalibration_gap_keeps_old_baseline` shows.) -/
theorem baseline_stability_and_rebuild :
    (∀ (s : GAState) (f : Frame) (t : ℚ), s.is_calibrated = true →
      baselinesOf (analyzeHeadPose f t s).2.2 = baselinesOf s) ∧
    (∀ (s : GAState) (f : Frame) (t c : ℚ), s.is_calibrated = false →
      s.calibration_start = some c → t - c < 1 → f.lookingForward = true →
      s.calibration_count = 0 →
      baselinesOf (analyzeHeadPose f t s).2.2 = frameBaselines f) := by
  constructor
  · intro s f t hcal
    have hcm := checkMovement_baselines f s
    simp only [analyzeHeadPose, hcal, Bool.not_true, Bool.false_eq_true,
      not_true_eq_false, if_false, ite_false]
    split_ifs <;> simp [startCalibration_baselines, hcm]
  · intro s f t c hcal hstart hlt hfwd hcount
    simp only [analyzeHeadPose, hcal, hstart, Bool.not_false, Bool.false_eq_true,
      not_false_eq_true, if_true, ite_true, hfwd, Bool.not_true, not_true_eq_false,
      if_false, ite_false, if_pos hlt]
    simp only [accumulateBaseline, hcount]
    by_cases hn : s.baseline_nose_pos = none
    · simp [hn, baselinesOf, frameBaselines]
    · simp [hn, baselinesOf, frameBaselines]
      try norm_num

/-- Witness for `baseline_stability_and_rebuild`: a calibrated step on
`calibState` keeps the baselines, and the first accumulation after the
restart state `c6B1` installs `baseFrame`'s features. -/
theorem baseline_stability_and_rebuild_witness :
    baselinesOf (analyzeHeadPose baseFrame 2 calibState).2.2 = baselinesOf calibState ∧
    baselinesOf (analyzeHeadPose baseFrame (1/2) c6B1).2.2 = frameBaselines baseFrame :=
  ⟨baseline_stability_and_rebuild.1 calibState baseFrame 2 rfl,
   baseline_stability_and_rebuild.2 c6B1 baseFrame (1/2) 0 rfl rfl (by norm_num) rfl rfl⟩

/-! ### C7 — movement hysteresis -/

/-- Calibrated states sharing `calibState`'s baseline geometry (any
violation-counter value and any blink/gaze bookkeeping). -/
def CalibLike (s : GAState) : Prop :=
  s.is_calibrated = true ∧
  s.baseline_nose_pos = some (1/2, 1/2) ∧
  s.baseline_left_iris = some (1/2, 1/2) ∧
  s.baseline_right_iris = some (1/2, 1/2) ∧
  s.baseline_face_width = some (1/5) ∧
  s.baseline_neck_pos = some (1/2, 4/5)

/-- On any `CalibLike` state, a baseline-geometry (non-violating) frame
reports "center" and only decrements the violation counter. -/
theorem nv_step (s : GAState) (t : ℚ) (h : CalibLike s) :
    analyzeHeadPose baseFrame t s =
      ("center", true, { s with movement_count := s.movement_count - 1 }) := by
  obtain ⟨h1, h2, h3, h4, h5, h6⟩ := h
  norm_num [analyzeHeadPose, checkMovement, coreBaselineUnset, joinDirections,
    h1, h2, h3, h4, h5, h6, baseFrame, headXThreshold, headYThreshold,
    faceWidthTolerance, maxMovementCount, abs_of_nonneg]
  try simp

theorem headPoseOutputs_append (l1 l2 : List (Frame × ℚ)) (s : GAState) :
    headPoseOutputs (l1 ++ l2) s =
      headPoseOutputs l1 s ++ headPoseOutputs l2 (headPoseFinal l1 s) := by
  induction l1 generalizing s with
  | nil => simp [headPoseOutputs, headPoseFinal]
  | cons p rest ih =>
      cases p
      simp [headPoseOutputs, headPoseFinal, ih]

theorem nv_run (n : ℕ) :
    ∀ s : GAState, CalibLike s →
      recalCount (List.replicate n (baseFrame, 0)) s = 0 := by
  induction n with
  | zero => intro s _; simp [recalCount, headPoseOutputs]
  | succ k ih =>
      intro s hs
      have hstep := nv_step s 0 hs
      have hs' : CalibLike { s with movement_count := s.movement_count - 1 } := hs
      simp only [List.replicate_succ, recalCount, headPoseOutputs, hstep]
      have hk := ih _ hs'
      simp only [recalCount] at hk
      simp [hk]

theorem four_viol_outputs :
    headPoseOutputs (List.replicate 4 (vFrame, 0)) calibState =
      ["center", "center", "center", "center"] := by
  simp only [List.replicate, headPoseOutputs, viol_step1, viol_step2, viol_step3,
    viol_step4]

theorem four_viol_final :
    headPoseFinal (List.replicate 4 (vFrame, 0)) calibState = calib4 := by
  simp only [List.replicate, headPoseFinal, viol_step1, viol_step2, viol_step3,
    viol_step4]

/-- C7: hysteresis of the drift detector. (i) On a calibrated state with
baselines set, a non-violating frame returns `False` from
`_check_movement` and moves the violation counter from `c` to `c - 1`
(for `c ≥ 1`: an exact decrement, not a reset to zero). (ii) Exactly
four consecutive violating frames followed by any number of
non-violating frames never produce a recalibration. (iii) Five
consecutive violating frames produce exactly one recalibration. -/
theorem movement_hysteresis :
    (∀ (s : GAState) (f : Frame) (bw : ℚ) (bn : ℚ × ℚ),
      s.baseline_face_width = some bw → s.baseline_neck_pos = some bn →
      ¬(|f.faceWidth - bw| / bw > faceWidthTolerance) →
      ¬(|f.neckPos.1 - bn.1| > 1/10) → 1 ≤ s.movement_count →
      (checkMovement f s).1 = false ∧
      (checkMovement f s).2.movement_count = s.movement_count - 1) ∧
    (∀ n : ℕ, recalCount
      (List.replicate 4 (vFrame, 0) ++ List.replicate n (baseFrame, 0)) calibState = 0) ∧
    recalCount (List.replicate 5 (vFrame, 0)) calibState = 1 := by
  refine ⟨?_, ?_, ?_⟩
  · intro s f bw bn hw hn hfw hnk _
    simp only [checkMovement, hw, hn]
    rw [if_neg (not_or.mpr ⟨hfw, hnk⟩)]
    exact ⟨rfl, rfl⟩
  · intro n
    have hcal4 : CalibLike calib4 := by
      refine ⟨?_, ?_, ?_, ?_, ?_, ?_⟩ <;> simp [calib4, calibState]
    have hnv := nv_run n calib4 hcal4
    simp only [recalCount, headPoseOutputs_append, List.count_append,
      four_viol_outputs, four_viol_final]
    simp only [recalCount] at hnv
    simp [hnv]
  · simp only [List.replicate, recalCount, headPoseOutputs, viol_step1, viol_step2,
      viol_step3, viol_step4, viol_step5]
    simp

/-- Witness for `movement_hysteresis`: a concrete decrement from counter
1 on the base frame, and the four-violation run followed by two
non-violating frames. -/
theorem movement_hysteresis_witness :
    ((checkMovement baseFrame calib1).1 = false ∧
      (checkMovement baseFrame calib1).2.movement_count = calib1.movement_count - 1) ∧
    recalCount
      (List.replicate 4 (vFrame, 0) ++ List.replicate 2 (baseFrame, 0)) calibState = 0 :=
  ⟨movement_hysteresis.1 calib1 baseFrame (1/5) (1/2, 4/5)
      (by simp [calib1, calibState]) (by simp [calib1, calibState])
      (by norm_num [baseFrame, faceWidthTolerance]) (by norm_num [baseFrame])
      (by simp [calib1, calibState]),
   movement_hysteresis.2.1 2⟩

end ModelVideo
